import Mathlib

/-!
Shallow embedding of the hotel-booking routes in
`src/backend/src/routes/hotels.ts` (search, hotel lookup, payment-intent
creation, booking confirmation), together with theorems settling the
specification claims about them.

External collaborators (the document database, the Stripe payment
processor, the authentication middleware) are passed in as explicit
oracle functions; a fallible external call is a function into
`Except String _`, where `Except.error` models a thrown exception.
-/

/-- A JavaScript number as it occurs in these routes: an integer, or NaN
(modelled as `none`). -/
abbrev JNum := Option Int

/-- Modelled from the spec: `BookingType` is declared in
`backend/src/shared/types.ts`, which is not under `src/`; per spec §3 a
booking carries stay dates, guest counts and a total cost besides the
owning user's id. The exact field inventory is irrelevant to the claims:
`BookingDetails` stands for every client-supplied booking field other
than `userId` and `paymentIntentId`. -/
structure BookingDetails where
  firstName : String
  lastName : String
  email : String
  checkIn : String
  checkOut : String
  adultCount : Int
  childCount : Int
  totalCost : Int
deriving DecidableEq

/-- A booking embedded in a hotel document: the owning user's id plus the
remaining booking fields. -/
structure Booking where
  userId : String
  details : BookingDetails
deriving DecidableEq

/-- Modelled from the spec: the `Hotel` mongoose model lives in
`backend/src/models/hotel.ts`, which is not under `src/`; per spec §3 a
hotel document has city, country, type, an integer star rating, numeric
price per night, adult/child capacities, facility tags and an embedded
ordered sequence of bookings. -/
structure Hotel where
  id : String
  city : String
  country : String
  type : String
  starRating : Int
  pricePerNight : Int
  adultCount : Int
  childCount : Int
  facilities : List String
  bookings : List Booking
deriving DecidableEq

/-- Modelled from the spec: the slice of a Stripe payment intent that the
routes read — id, client secret, lifecycle status, and the metadata
binding it to a hotel id and user id (spec §3). -/
structure PaymentIntent where
  id : String
  client_secret : Option String
  status : String
  metadataHotelId : String
  metadataUserId : String
  amount : Int
deriving DecidableEq

/-- The argument object passed to `stripe.paymentIntents.create` at
`hotels.ts:96-103`: amount in minor units, currency, and the metadata. -/
structure CreateParams where
  amount : Int
  currency : String
  metadataHotelId : String
  metadataUserId : String
deriving DecidableEq

/-- Outcome of the payment-intent route, when the handler itself produces
a response: HTTP 400 / HTTP 500 with a message, or the success payload
`{ paymentIntentId, clientSecret, totalCost }`. -/
inductive PIResult where
  | clientError (msg : String)
  | serverError (msg : String)
  | success (paymentIntentId : String) (clientSecret : String) (totalCost : Int)
deriving DecidableEq

/-- The handler of `POST /:hotelId/bookings/payment-intent`
(`hotels.ts:83-117`). `findById` models `Hotel.findById`, `create` models
`stripe.paymentIntents.create`; both may throw. The handler body has no
try/catch, so a thrown exception propagates out of the handler
(`Except.error` in the second component). The first component records the
create request the handler sent to the processor, if any.

JavaScript detail kept: `!paymentIntent.client_secret` is true for a
missing secret and for the empty string. -/
def paymentIntentHandler (findById : String → Except String (Option Hotel))
    (create : CreateParams → Except String PaymentIntent)
    (hotelId userId : String) (numberOfNights : Int) :
    Option CreateParams × Except String PIResult :=
  match findById hotelId with
  | .error e => (none, .error e)
  | .ok none => (none, .ok (.clientError "Hotel not found"))
  | .ok (some hotel) =>
    let totalCost := hotel.pricePerNight * numberOfNights
    let params : CreateParams :=
      { amount := totalCost * 100, currency := "usd",
        metadataHotelId := hotelId, metadataUserId := userId }
    match create params with
    | .error e => (some params, .error e)
    | .ok paymentIntent =>
      match paymentIntent.client_secret with
      | none => (some params, .ok (.serverError "Error creating payment intent"))
      | some cs =>
        if cs = "" then (some params, .ok (.serverError "Error creating payment intent"))
        else (some params, .ok (.success paymentIntent.id cs totalCost))

/-- Outcome of the `GET /:id` route: 400 from the validator, 500 from the
catch block, or a 200 JSON response whose body is the lookup result
(possibly `null`, i.e. `none`). -/
inductive GetHotelResult where
  | badRequest (msg : String)
  | serverError (msg : String)
  | okJson (hotel : Option Hotel)
deriving DecidableEq

/-- The handler of `GET /:id` (`hotels.ts:63-81`). The
`param("id").notEmpty()` validator rejects an empty id with 400; a thrown
lookup (e.g. a mongoose cast error on a malformed id) is caught and
answered with 500 `"Error fetching hotel"`; otherwise the lookup result —
a hotel or `null` — is sent back as JSON with status 200. -/
def getHotelHandler (findById : String → Except String (Option Hotel))
    (idParam : String) : GetHotelResult :=
  if idParam = "" then .badRequest "Hotel ID is required"
  else
    match findById idParam with
    | .error _ => .serverError "Error fetching hotel"
    | .ok hotel => .okJson hotel

/-- Outcome of the booking-confirmation route: 400 / 500 with a message,
or the empty 200 response. -/
inductive ConfirmResult where
  | badRequest (msg : String)
  | serverError (msg : String)
  | ok
deriving DecidableEq

/-- The request body of `POST /:hotelId/bookings`: the payment intent id,
an optional client-supplied `userId` (which the handler overwrites), and
the remaining booking fields. -/
structure BookingBody where
  paymentIntentId : String
  userId : Option String
  details : BookingDetails
deriving DecidableEq

/-- The booking constructed at `hotels.ts:146-149`:
`{ ...req.body, userId: req.userId }` — every body field is copied and
the `userId` field is then overwritten with the authenticated user's id
(the mongoose schema drops fields, such as `paymentIntentId`, that are
not part of `BookingType`). -/
def mkBooking (body : BookingBody) (authUserId : String) : Booking :=
  { userId := authUserId, details := body.details }

/-- Lookup of the first hotel document with the given id, modelling the
`{ _id: hotelId }` filter of `Hotel.findOneAndUpdate` / `Hotel.findById`
against the hotel collection. -/
def findHotel (hotels : List Hotel) (hotelId : String) : Option Hotel :=
  hotels.find? (fun h => h.id = hotelId)

/-- The `$push: { bookings: newBooking }` update of
`Hotel.findOneAndUpdate` (`hotels.ts:151-156`): append the booking to the
bookings sequence of the first hotel matching the id; if no hotel
matches, the collection is unchanged. -/
def pushBooking : List Hotel → String → Booking → List Hotel
  | [], _, _ => []
  | h :: t, hotelId, b =>
    if h.id = hotelId then { h with bookings := h.bookings ++ [b] } :: t
    else h :: pushBooking t hotelId b

/-- The handler of `POST /:hotelId/bookings` (`hotels.ts:119-170`).
`retrieve` models `stripe.paymentIntents.retrieve` and may throw; the
whole body is inside try/catch, so a thrown exception becomes a 500
`"something went wrong"` with the collection unchanged. Returns the
response together with the hotel collection after the request. -/
def confirmBooking (retrieve : String → Except String (Option PaymentIntent))
    (hotels : List Hotel) (hotelId userId : String) (body : BookingBody) :
    ConfirmResult × List Hotel :=
  match retrieve body.paymentIntentId with
  | .error _ => (.serverError "something went wrong", hotels)
  | .ok none => (.badRequest "payment intent not found", hotels)
  | .ok (some paymentIntent) =>
    if paymentIntent.metadataHotelId ≠ hotelId ∨ paymentIntent.metadataUserId ≠ userId then
      (.badRequest "payment intent mismatch", hotels)
    else if paymentIntent.status ≠ "succeeded" then
      (.badRequest ("payment intent not succeeded. Status: " ++ paymentIntent.status), hotels)
    else
      match findHotel hotels hotelId with
      | none => (.badRequest "hotel not found", hotels)
      | some _ => (.ok, pushBooking hotels hotelId (mkBooking body userId))

/-! ### Helper lemmas and concrete fixtures -/

theorem findHotel_pushBooking (hotels : List Hotel) (hotelId : String) (b : Booking) :
    findHotel (pushBooking hotels hotelId b) hotelId =
      (findHotel hotels hotelId).map (fun h => { h with bookings := h.bookings ++ [b] }) := by
  induction hotels with
  | nil => rfl
  | cons h t ih =>
    by_cases hid : h.id = hotelId
    · simp [pushBooking, findHotel, hid]
    · have hb : decide (h.id = hotelId) = false := by simpa using hid
      unfold pushBooking findHotel
      rw [if_neg hid]
      simp only [List.find?_cons, hb]
      exact ih

def detailsA : BookingDetails :=
  { firstName := "Ada", lastName := "Lovelace", email := "ada@example.com",
    checkIn := "2026-01-01", checkOut := "2026-01-04",
    adultCount := 2, childCount := 0, totalCost := 600 }

def hotelA : Hotel :=
  { id := "h1", city := "Hanoi", country := "Vietnam", type := "Budget",
    starRating := 4, pricePerNight := 200, adultCount := 2, childCount := 1,
    facilities := ["WiFi", "Parking"], bookings := [] }

def piSucceeded : PaymentIntent :=
  { id := "pi_1", client_secret := some "cs_1", status := "succeeded",
    metadataHotelId := "h1", metadataUserId := "u1", amount := 60000 }

def bodyA : BookingBody :=
  { paymentIntentId := "pi_1", userId := some "mallory", details := detailsA }

def bodyB : BookingBody :=
  { paymentIntentId := "pi_1", userId := none, details := detailsA }

def findByIdA : String → Except String (Option Hotel) :=
  fun id => if id = "h1" then .ok (some hotelA) else .ok none

def retrieveSucceeded : String → Except String (Option PaymentIntent) :=
  fun id => if id = "pi_1" then .ok (some piSucceeded) else .ok none

def createBoom : CreateParams → Except String PaymentIntent :=
  fun _ => .error "processor unreachable"

def createEcho : CreateParams → Except String PaymentIntent :=
  fun p => .ok { id := "pi_1", client_secret := some "cs_1",
                 status := "requires_payment_method",
                 metadataHotelId := p.metadataHotelId,
                 metadataUserId := p.metadataUserId, amount := p.amount }

/-- Classifier: is this handler outcome a 500 response produced by the
handler itself (as opposed to an uncaught exception)? -/
def isServerError500 : Except String PIResult → Bool
  | .ok (.serverError _) => true
  | _ => false

/-- Classifier: is this `GET /:id` outcome a 200 response carrying an
actual hotel object? -/
def isHotelJson : GetHotelResult → Bool
  | .okJson (some _) => true
  | _ => false

/-- Classifier: is this `GET /:id` outcome an HTTP 400 response? -/
def isBadRequest400 : GetHotelResult → Bool
  | .badRequest _ => true
  | _ => false

/-! ### Claim theorems: booking confirmation (C1, C3, C10) -/

/-- C1: a booking is appended to the hotel collection only if the
retrieved payment intent exists, its metadata hotel id equals the path's
hotel id, its metadata user id equals the authenticated user's id, and
its status is `"succeeded"`; when the intent is missing, mismatched, or
not succeeded, the handler answers HTTP 400 — naming the actual status
when the status check fails — and leaves the collection unchanged. -/
theorem confirm_booking_validation_gate
    (retrieve : String → Except String (Option PaymentIntent))
    (hotels : List Hotel) (hotelId userId : String) (body : BookingBody) :
    ((confirmBooking retrieve hotels hotelId userId body).2 ≠ hotels →
      ∃ pi, retrieve body.paymentIntentId = .ok (some pi) ∧
        pi.metadataHotelId = hotelId ∧ pi.metadataUserId = userId ∧
        pi.status = "succeeded") ∧
    (retrieve body.paymentIntentId = .ok none →
      confirmBooking retrieve hotels hotelId userId body =
        (.badRequest "payment intent not found", hotels)) ∧
    ∀ pi, retrieve body.paymentIntentId = .ok (some pi) →
      ((pi.metadataHotelId ≠ hotelId ∨ pi.metadataUserId ≠ userId) →
        confirmBooking retrieve hotels hotelId userId body =
          (.badRequest "payment intent mismatch", hotels)) ∧
      (pi.metadataHotelId = hotelId → pi.metadataUserId = userId →
        pi.status ≠ "succeeded" →
        confirmBooking retrieve hotels hotelId userId body =
          (.badRequest ("payment intent not succeeded. Status: " ++ pi.status),
            hotels)) := by
  refine ⟨?_, ?_, ?_⟩
  · intro hne
    cases hr : retrieve body.paymentIntentId with
    | error e => exact absurd (by simp [confirmBooking, hr]) hne
    | ok opi =>
      cases opi with
      | none => exact absurd (by simp [confirmBooking, hr]) hne
      | some pi =>
        by_cases h1 : pi.metadataHotelId = hotelId
        · by_cases h2 : pi.metadataUserId = userId
          · by_cases h3 : pi.status = "succeeded"
            · exact ⟨pi, rfl, h1, h2, h3⟩
            · exact absurd (by simp [confirmBooking, hr, h1, h2, h3]) hne
          · exact absurd (by simp [confirmBooking, hr, h2]) hne
        · exact absurd (by simp [confirmBooking, hr, h1]) hne
  · intro h
    simp [confirmBooking, h]
  · intro pi hr
    refine ⟨?_, ?_⟩
    · intro hmm
      simp [confirmBooking, hr, if_pos hmm]
    · intro h1 h2 h3
      simp [confirmBooking, hr, h1, h2, h3]

/-- Witness for C1 at a concrete input: the processor reports no such
intent, so the handler answers 400 and the collection is unchanged. -/
theorem confirm_booking_validation_gate_witness :
    confirmBooking (fun _ => .ok none) [hotelA] "h1" "u1" bodyA =
      (.badRequest "payment intent not found", [hotelA]) :=
  (confirm_booking_validation_gate (fun _ => .ok none) [hotelA] "h1" "u1"
    bodyA).2.1 rfl

/-- C3: confirming twice with the same already-succeeded payment intent
appends two booking records — there is no de-duplication by payment
intent id. -/
theorem confirm_booking_no_dedup
    (retrieve : String → Except String (Option PaymentIntent))
    (hotels : List Hotel) (hotelId userId : String) (body : BookingBody)
    (pi : PaymentIntent) (h : Hotel)
    (hr : retrieve body.paymentIntentId = .ok (some pi))
    (hh : pi.metadataHotelId = hotelId) (hu : pi.metadataUserId = userId)
    (hs : pi.status = "succeeded")
    (hf : findHotel hotels hotelId = some h) :
    (confirmBooking retrieve hotels hotelId userId body).1 = .ok ∧
    (confirmBooking retrieve
      (confirmBooking retrieve hotels hotelId userId body).2
      hotelId userId body).1 = .ok ∧
    findHotel (confirmBooking retrieve
      (confirmBooking retrieve hotels hotelId userId body).2
      hotelId userId body).2 hotelId =
      some { h with bookings :=
        h.bookings ++ [mkBooking body userId, mkBooking body userId] } := by
  have hfirst : confirmBooking retrieve hotels hotelId userId body =
      (.ok, pushBooking hotels hotelId (mkBooking body userId)) := by
    simp [confirmBooking, hr, hh, hu, hs, hf]
  have hf1 : findHotel (pushBooking hotels hotelId (mkBooking body userId)) hotelId =
      some { h with bookings := h.bookings ++ [mkBooking body userId] } := by
    rw [findHotel_pushBooking, hf]; rfl
  have hsecond : confirmBooking retrieve
      (pushBooking hotels hotelId (mkBooking body userId)) hotelId userId body =
      (.ok, pushBooking (pushBooking hotels hotelId (mkBooking body userId))
        hotelId (mkBooking body userId)) := by
    simp [confirmBooking, hr, hh, hu, hs, hf1]
  refine ⟨by rw [hfirst], by rw [hfirst, hsecond], ?_⟩
  rw [hfirst, hsecond]
  rw [findHotel_pushBooking, hf1]
  simp

/-- Witness for C3 at a concrete input: two confirmations against the
same succeeded intent leave two copies of the booking on the hotel. -/
theorem confirm_booking_no_dedup_witness :
    (confirmBooking retrieveSucceeded [hotelA] "h1" "u1" bodyA).1 = .ok ∧
    (confirmBooking retrieveSucceeded
      (confirmBooking retrieveSucceeded [hotelA] "h1" "u1" bodyA).2
      "h1" "u1" bodyA).1 = .ok ∧
    findHotel (confirmBooking retrieveSucceeded
      (confirmBooking retrieveSucceeded [hotelA] "h1" "u1" bodyA).2
      "h1" "u1" bodyA).2 "h1" =
      some { hotelA with bookings :=
        hotelA.bookings ++ [mkBooking bodyA "u1", mkBooking bodyA "u1"] } :=
  confirm_booking_no_dedup retrieveSucceeded [hotelA] "h1" "u1" bodyA
    piSucceeded hotelA rfl rfl rfl rfl rfl

/-- C10: the userId stored in the appended booking is the authenticated
user's id; two request bodies that differ only in their client-supplied
`userId` field produce identical handler behaviour. -/
theorem confirm_booking_overwrites_userId
    (retrieve : String → Except String (Option PaymentIntent))
    (hotels : List Hotel) (hotelId userId : String) (b1 b2 : BookingBody)
    (hpid : b1.paymentIntentId = b2.paymentIntentId)
    (hdet : b1.details = b2.details) :
    confirmBooking retrieve hotels hotelId userId b1 =
      confirmBooking retrieve hotels hotelId userId b2 ∧
    (mkBooking b1 userId).userId = userId := by
  obtain ⟨p1, u1, d1⟩ := b1
  obtain ⟨p2, u2, d2⟩ := b2
  simp only [BookingBody.paymentIntentId] at hpid
  simp only [BookingBody.details] at hdet
  subst hpid; subst hdet
  exact ⟨rfl, rfl⟩

/-- Witness for C10 at a concrete input: the same outcome whether the
body carries a foreign `userId` or none at all. -/
theorem confirm_booking_overwrites_userId_witness :
    confirmBooking retrieveSucceeded [hotelA] "h1" "u1" bodyA =
      confirmBooking retrieveSucceeded [hotelA] "h1" "u1" bodyB ∧
    (mkBooking bodyA "u1").userId = "u1" :=
  confirm_booking_overwrites_userId retrieveSucceeded [hotelA] "h1" "u1"
    bodyA bodyB rfl rfl

/-! ### Claim theorems: payment-intent handler (C2, C8) and GET /:id (C9) -/

/-- The create request the payment-intent handler sends to the processor
for a resolved hotel: the total cost converted to minor units, the
currency, and the hotel/user metadata (`hotels.ts:96-103`). -/
def sentParams (hotel : Hotel) (hotelId userId : String)
    (numberOfNights : Int) : CreateParams :=
  { amount := hotel.pricePerNight * numberOfNights * 100, currency := "usd",
    metadataHotelId := hotelId, metadataUserId := userId }

/-- C2: when the hotel resolves, the handler computes
`totalCost = pricePerNight * numberOfNights`, sends the processor a
create request whose amount is `totalCost * 100` with the hotel id and
user id in its metadata, and — when the processor returns an intent with
a usable client secret — responds with that same `totalCost`. -/
theorem payment_intent_amount_and_total
    (findById : String → Except String (Option Hotel))
    (create : CreateParams → Except String PaymentIntent)
    (hotelId userId : String) (numberOfNights : Int) (hotel : Hotel)
    (hfind : findById hotelId = .ok (some hotel)) :
    (sentParams hotel hotelId userId numberOfNights).amount =
      hotel.pricePerNight * numberOfNights * 100 ∧
    (sentParams hotel hotelId userId numberOfNights).metadataHotelId = hotelId ∧
    (sentParams hotel hotelId userId numberOfNights).metadataUserId = userId ∧
    (paymentIntentHandler findById create hotelId userId numberOfNights).1 =
      some (sentParams hotel hotelId userId numberOfNights) ∧
    ∀ pi cs,
      create (sentParams hotel hotelId userId numberOfNights) = .ok pi →
      pi.client_secret = some cs → cs ≠ "" →
      (paymentIntentHandler findById create hotelId userId numberOfNights).2 =
        .ok (.success pi.id cs (hotel.pricePerNight * numberOfNights)) := by
  refine ⟨rfl, rfl, rfl, ?_, ?_⟩
  · simp only [paymentIntentHandler, hfind]
    cases hc : create (sentParams hotel hotelId userId numberOfNights) with
    | error e =>
      simp only [sentParams] at hc
      simp [sentParams, hc]
    | ok pi =>
      simp only [sentParams] at hc
      cases hcs : pi.client_secret with
      | none => simp [sentParams, hc, hcs]
      | some cs => by_cases hemp : cs = "" <;> simp [sentParams, hc, hcs, hemp]
  · intro pi cs hc hcs hemp
    simp only [sentParams] at hc
    simp [paymentIntentHandler, hfind, hc, hcs, hemp]

/-- Witness for C2 at the spec's own example: price 200 and 3 nights give
a requested amount of 60000 minor units and a returned total cost of
600. -/
theorem payment_intent_amount_and_total_witness :
    (sentParams hotelA "h1" "u1" 3).amount = 60000 ∧
    (paymentIntentHandler findByIdA createEcho "h1" "u1" 3).1 =
      some (sentParams hotelA "h1" "u1" 3) ∧
    (paymentIntentHandler findByIdA createEcho "h1" "u1" 3).2 =
      .ok (.success "pi_1" "cs_1" 600) := by
  have h := payment_intent_amount_and_total findByIdA createEcho "h1" "u1" 3
    hotelA rfl
  refine ⟨by decide, h.2.2.2.1, ?_⟩
  have h2 := h.2.2.2.2 _ "cs_1" rfl rfl (by decide)
  simpa using h2

/-- Counterexample for C8 as stated: a processor failure inside the
payment-intent handler is NOT answered with an HTTP 500 response — the
handler body has no try/catch, so the exception propagates out of the
handler unhandled. -/
theorem payment_intent_uncaught_failure_cex :
    (paymentIntentHandler findByIdA createBoom "h1" "u1" 3).2 =
      .error "processor unreachable" ∧
    isServerError500 (paymentIntentHandler findByIdA createBoom "h1" "u1" 3).2 =
      false :=
  ⟨rfl, rfl⟩

/-- C8 as amended: the payment-intent handler answers 400 when the hotel
id does not resolve and 500 when the processor returns no usable client
secret; but an exception thrown by the hotel lookup or by the processor
propagates out of the handler uncaught (there is no try/catch in this
handler), instead of being reported as an HTTP 500 response. -/
theorem payment_intent_error_paths
    (findById : String → Except String (Option Hotel))
    (create : CreateParams → Except String PaymentIntent)
    (hotelId userId : String) (numberOfNights : Int) :
    (findById hotelId = .ok none →
      paymentIntentHandler findById create hotelId userId numberOfNights =
        (none, .ok (.clientError "Hotel not found"))) ∧
    (∀ e, findById hotelId = .error e →
      paymentIntentHandler findById create hotelId userId numberOfNights =
        (none, .error e)) ∧
    ∀ hotel, findById hotelId = .ok (some hotel) →
      (∀ pi,
        create (sentParams hotel hotelId userId numberOfNights) = .ok pi →
        (pi.client_secret = none ∨ pi.client_secret = some "") →
        (paymentIntentHandler findById create hotelId userId numberOfNights).2 =
          .ok (.serverError "Error creating payment intent")) ∧
      ∀ e,
        create (sentParams hotel hotelId userId numberOfNights) = .error e →
        (paymentIntentHandler findById create hotelId userId numberOfNights).2 =
          .error e := by
  refine ⟨?_, ?_, ?_⟩
  · intro h; simp [paymentIntentHandler, h]
  · intro e h; simp [paymentIntentHandler, h]
  · intro hotel hfind
    refine ⟨?_, ?_⟩
    · intro pi hc hcs
      simp only [sentParams] at hc
      cases hcs with
      | inl h => simp [paymentIntentHandler, hfind, hc, h]
      | inr h => simp [paymentIntentHandler, hfind, hc, h]
    · intro e hc
      simp only [sentParams] at hc
      simp [paymentIntentHandler, hfind, hc]

/-- Witness for the amended C8 at concrete inputs: an unresolved hotel id
yields the 400 response, and a thrown processor call escapes the handler
as an error rather than a response. -/
theorem payment_intent_error_paths_witness :
    paymentIntentHandler findByIdA createBoom "h9" "u1" 3 =
      (none, .ok (.clientError "Hotel not found")) ∧
    (paymentIntentHandler findByIdA createBoom "h1" "u1" 3).2 =
      .error "processor unreachable" := by
  refine ⟨(payment_intent_error_paths findByIdA createBoom "h9" "u1" 3).1 rfl, ?_⟩
  exact ((payment_intent_error_paths findByIdA createBoom "h1" "u1" 3).2.2
    hotelA rfl).2 "processor unreachable" rfl

/-- Counterexample for C9 as stated: the `GET /:id` handler neither
returns a hotel object nor an HTTP 400 in two reachable situations — a
lookup that throws (e.g. a malformed id, which mongoose rejects with a
cast error) is answered with HTTP 500, and a well-formed id that matches
no hotel is answered 200 with a `null` body. -/
theorem get_hotel_cex :
    getHotelHandler (fun _ => .error "CastError") "zzz" =
      .serverError "Error fetching hotel" ∧
    isHotelJson (getHotelHandler (fun _ => .error "CastError") "zzz") = false ∧
    isBadRequest400 (getHotelHandler (fun _ => .error "CastError") "zzz") = false ∧
    getHotelHandler (fun _ => .ok none) "abc" = .okJson none ∧
    isHotelJson (getHotelHandler (fun _ => .ok none) "abc") = false ∧
    isBadRequest400 (getHotelHandler (fun _ => .ok none) "abc") = false :=
  ⟨rfl, rfl, rfl, rfl, rfl, rfl⟩

/-- C9 as amended: `GET /:id` returns 400 only when the id parameter is
empty; otherwise it returns whatever the lookup produced as a 200 JSON
body (the hotel, or null when no hotel matches), and answers 500 when
the lookup throws (e.g. on a malformed id). -/
theorem get_hotel_cases
    (findById : String → Except String (Option Hotel)) (idParam : String) :
    (idParam = "" →
      getHotelHandler findById idParam = .badRequest "Hotel ID is required") ∧
    (∀ e, idParam ≠ "" → findById idParam = .error e →
      getHotelHandler findById idParam = .serverError "Error fetching hotel") ∧
    ∀ o, idParam ≠ "" → findById idParam = .ok o →
      getHotelHandler findById idParam = .okJson o := by
  refine ⟨?_, ?_, ?_⟩
  · intro h; simp [getHotelHandler, h]
  · intro e hne h; simp [getHotelHandler, hne, h]
  · intro o hne h; simp [getHotelHandler, hne, h]

/-- Witness for the amended C9 at concrete inputs: empty id gives 400,
a found hotel is returned as JSON. -/
theorem get_hotel_cases_witness :
    getHotelHandler findByIdA "" = .badRequest "Hotel ID is required" ∧
    getHotelHandler findByIdA "h1" = .okJson (some hotelA) := by
  refine ⟨(get_hotel_cases findByIdA "").1 rfl, ?_⟩
  exact (get_hotel_cases findByIdA "h1").2.2 (some hotelA) (by decide) rfl

/-! ### JavaScript numeric strings: parseInt, toString, and the ODM cast -/

/-- Numeric value of a decimal digit character. -/
def charVal (c : Char) : Nat := c.toNat - 48

/-- Value of a most-significant-first list of decimal digit characters. -/
def digitsVal (l : List Char) : Nat := l.foldl (fun a c => 10 * a + charVal c) 0

/-- Decimal digit characters of a natural number, most significant
first. -/
def natToChars (m : Nat) : List Char :=
  if m = 0 then ['0'] else ((Nat.digits 10 m).map Nat.digitChar).reverse

/-- JavaScript `Number.prototype.toString` on the values produced by
`parseInt`: decimal rendering of an integer, `"NaN"` for NaN. This
models the `.toString()` call at `hotels.ts:227`. -/
def numToString : JNum → String
  | none => "NaN"
  | some n =>
    if n < 0 then String.mk ('-' :: natToChars n.natAbs)
    else String.mk (natToChars n.natAbs)

/-- Modelled from the spec: the mongoose schema casts a string query
bound back to the schema's numeric type (the `Hotel` model is not under
`src/`; spec §3 declares price per night numeric). The cast accepts a
decimal integer string and fails on anything else, such as `"NaN"`. -/
def castQueryNum (s : String) : Option Int :=
  match s.toList with
  | [] => some 0
  | c :: cs =>
    if c = '-' then
      if cs ≠ [] ∧ cs.all Char.isDigit then some (-(digitsVal cs : Int)) else none
    else
      if (c :: cs).all Char.isDigit then some ((digitsVal (c :: cs) : Int)) else none

/-- JavaScript `parseInt` as used on the route's query parameters: skip
leading whitespace, optional sign, then the longest leading run of
decimal digits; no digits gives NaN. (The hexadecimal `0x` form never
arises here.) -/
def jsParseInt (s : String) : Option Int :=
  match s.toList.dropWhile Char.isWhitespace with
  | '-' :: rest =>
    if (rest.takeWhile Char.isDigit) = [] then none
    else some (-(digitsVal (rest.takeWhile Char.isDigit) : Int))
  | '+' :: rest =>
    if (rest.takeWhile Char.isDigit) = [] then none
    else some ((digitsVal (rest.takeWhile Char.isDigit) : Int))
  | l =>
    if (l.takeWhile Char.isDigit) = [] then none
    else some ((digitsVal (l.takeWhile Char.isDigit) : Int))

theorem charVal_digitChar {d : Nat} (h : d < 10) :
    charVal (Nat.digitChar d) = d := by
  interval_cases d <;> rfl

theorem isDigit_digitChar {d : Nat} (h : d < 10) :
    (Nat.digitChar d).isDigit = true := by
  interval_cases d <;> rfl

theorem digitsVal_snoc (l : List Char) (c : Char) :
    digitsVal (l ++ [c]) = 10 * digitsVal l + charVal c := by
  simp [digitsVal, List.foldl_append]

theorem digitsVal_reverse_map (ds : List Nat) (h : ∀ d ∈ ds, d < 10) :
    digitsVal ((ds.map Nat.digitChar).reverse) = Nat.ofDigits 10 ds := by
  induction ds with
  | nil => simp [digitsVal, Nat.ofDigits_nil]
  | cons d ds ih =>
    have hd : d < 10 := h d (by simp)
    have hds : ∀ x ∈ ds, x < 10 := fun x hx => h x (by simp [hx])
    simp only [List.map_cons, List.reverse_cons, digitsVal_snoc, ih hds,
      Nat.ofDigits_cons, charVal_digitChar hd]
    ring

theorem natToChars_all_digit (m : Nat) :
    (natToChars m).all Char.isDigit = true := by
  unfold natToChars
  by_cases hm : m = 0
  · simp [hm]
  · simp only [hm, if_false, List.all_eq_true, List.mem_reverse, List.mem_map]
    rintro c ⟨d, hd, rfl⟩
    exact isDigit_digitChar (Nat.digits_lt_base (by norm_num) hd)

theorem natToChars_ne_nil (m : Nat) : natToChars m ≠ [] := by
  unfold natToChars
  by_cases hm : m = 0
  · simp [hm]
  · simp only [hm, if_false, ne_eq, List.reverse_eq_nil_iff, List.map_eq_nil_iff]
    exact Nat.digits_ne_nil_iff_ne_zero.mpr hm

theorem digitsVal_natToChars (m : Nat) : digitsVal (natToChars m) = m := by
  unfold natToChars
  by_cases hm : m = 0
  · simp [hm, digitsVal, charVal]
  · rw [if_neg hm, digitsVal_reverse_map _ (fun d hd => Nat.digits_lt_base (by norm_num) hd),
      Nat.ofDigits_digits]

theorem castQueryNum_numToString (n : Int) :
    castQueryNum (numToString (some n)) = some n := by
  by_cases hn : n < 0
  · have hne := natToChars_ne_nil n.natAbs
    have hdig := natToChars_all_digit n.natAbs
    simp only [numToString, if_pos hn, castQueryNum, String.toList]
    rw [if_pos trivial, if_pos ⟨hne, hdig⟩, digitsVal_natToChars]
    simp only [Option.some.injEq]
    omega
  · obtain ⟨c, cs, hcons⟩ : ∃ c cs, natToChars n.natAbs = c :: cs := by
      cases hx : natToChars n.natAbs with
      | nil => exact absurd hx (natToChars_ne_nil _)
      | cons c cs => exact ⟨c, cs, rfl⟩
    have hdig : (c :: cs).all Char.isDigit = true := by
      rw [← hcons]; exact natToChars_all_digit _
    have hcd : c.isDigit = true := by
      simp only [List.all_cons, Bool.and_eq_true] at hdig
      exact hdig.1
    have hcne : ¬ c = '-' := by
      intro h
      rw [h] at hcd
      exact absurd hcd (by decide)
    simp only [numToString, if_neg hn, castQueryNum, String.toList, hcons]
    rw [if_neg hcne, if_pos hdig, ← hcons, digitsVal_natToChars]
    simp only [Option.some.injEq]
    omega

/-! ### Search query builder and its matching semantics -/

/-- An HTTP query parameter as the framework's query-string parser
delivers it to the route: a single string, or an array of strings when
the parameter is repeated. -/
abbrev QParam := Sum String (List String)

/-- The request parameters read by `constructSearchQuery`
(`hotels.ts:174-231`). `none` models an absent parameter. The scalar
parameters (destination, counts, maximum price) are modelled as plain
strings. -/
structure QueryParams where
  destination : Option String := none
  adultCount : Option String := none
  childCount : Option String := none
  facilities : Option QParam := none
  types : Option QParam := none
  stars : Option QParam := none
  maxPrice : Option String := none
deriving DecidableEq

/-- The `Array.isArray(x) ? x : [x]` wrapping used at
`hotels.ts:201-203` and `hotels.ts:209-211`. -/
def toArr : QParam → List String
  | .inl s => [s]
  | .inr l => l

/-- JavaScript truthiness of a query parameter value: an empty string is
falsy, any array (even empty) is truthy. -/
def truthyParam : QParam → Prop
  | .inl s => s ≠ ""
  | .inr _ => True

/-- The query object built by `constructSearchQuery`: one optional
constraint per hotel field. `orDestination` holds the pattern of the two
case-insensitive regular expressions placed under `$or` on city and
country; `adultCount`/`childCount` hold `$gte` bounds; `facilities`
holds the `$all` list; `type` holds the `$in` list; `starRating` holds
the `$in` value, which the source leaves unwrapped (a bare number) for a
scalar `stars` parameter; `pricePerNight` holds the `$lte` bound, which
the source stores as a STRING (`parseInt(...).toString()`,
`hotels.ts:227`). -/
structure SearchQuery where
  orDestination : Option String := none
  adultCount : Option JNum := none
  childCount : Option JNum := none
  facilities : Option (List String) := none
  type : Option (List String) := none
  starRating : Option (Sum JNum (List JNum)) := none
  pricePerNight : Option String := none
deriving DecidableEq

/-- `constructSearchQuery` (`hotels.ts:174-231`): each constraint key is
set only when the corresponding parameter is truthy; numeric parameters
go through `parseInt`; `facilities`/`types` are wrapped into arrays when
scalar, `stars` is not; `maxPrice` is parsed and rendered back to a
string. -/
def constructSearchQuery (p : QueryParams) : SearchQuery :=
  { orDestination := match p.destination with
      | none => none
      | some d => if d = "" then none else some d,
    adultCount := match p.adultCount with
      | none => none
      | some a => if a = "" then none else some (jsParseInt a),
    childCount := match p.childCount with
      | none => none
      | some c => if c = "" then none else some (jsParseInt c),
    facilities := match p.facilities with
      | none => none
      | some (.inl s) => if s = "" then none else some [s]
      | some (.inr l) => some l,
    type := match p.types with
      | none => none
      | some (.inl s) => if s = "" then none else some [s]
      | some (.inr l) => some l,
    starRating := match p.stars with
      | none => none
      | some (.inl s) => if s = "" then none else some (.inl (jsParseInt s))
      | some (.inr l) => some (.inr (l.map jsParseInt)),
    pricePerNight := match p.maxPrice with
      | none => none
      | some m => if m = "" then none else some (numToString (jsParseInt m)) }

/-- Substring search on character lists: does `pat` occur contiguously
inside the second list? -/
def hasSub (pat : List Char) : List Char → Bool
  | [] => pat.isEmpty
  | c :: rest => pat.isPrefixOf (c :: rest) || hasSub pat rest

theorem hasSub_iff (pat l : List Char) :
    hasSub pat l = true ↔ ∃ s t, l = s ++ pat ++ t := by
  induction l with
  | nil =>
    simp only [hasSub, List.isEmpty_iff]
    constructor
    · rintro rfl; exact ⟨[], [], rfl⟩
    · rintro ⟨s, t, h⟩
      rcases List.append_eq_nil.mp (List.append_eq_nil.mp h.symm).1 with ⟨-, h2⟩
      exact h2
  | cons c rest ih =>
    simp only [hasSub, Bool.or_eq_true, List.isPrefixOf_iff_prefix, ih]
    constructor
    · rintro (⟨t, ht⟩ | ⟨s, t, h⟩)
      · exact ⟨[], t, by simpa using ht.symm⟩
      · exact ⟨c :: s, t, by simp [h]⟩
    · rintro ⟨s, t, h⟩
      cases s with
      | nil => exact Or.inl ⟨t, by simpa using h.symm⟩
      | cons c' s' =>
        rcases List.cons.injEq .. ▸ h with ⟨-, h2⟩
        exact Or.inr ⟨s', t, h2⟩

/-- Modelled from the spec: evaluation of the `$or` of the two
case-insensitive regular expressions against a hotel — per spec §4.1 the
destination text matches as a case-insensitive substring of the city or
the country (the regular-expression engine is external; patterns are
taken metacharacter-free). A missing constraint matches every hotel. -/
def matchOr (h : Hotel) : Option String → Bool
  | none => true
  | some pat =>
    hasSub pat.toLower.toList h.city.toLower.toList ||
    hasSub pat.toLower.toList h.country.toLower.toList

/-- Modelled from the spec: evaluation of a `$gte` bound against a
numeric hotel field; a NaN bound matches nothing. -/
def matchGte (v : Int) : Option JNum → Bool
  | none => true
  | some none => false
  | some (some bound) => bound ≤ v

/-- Modelled from the spec: evaluation of `$all` — every requested tag
must be present on the hotel (set containment, spec §4.1). -/
def matchAll (hotelTags : List String) : Option (List String) → Bool
  | none => true
  | some req => req.all (fun f => hotelTags.contains f)

/-- Modelled from the spec: evaluation of `$in` on a string field — the
hotel's value must be one of the requested values. -/
def matchIn (v : String) : Option (List String) → Bool
  | none => true
  | some l => l.contains v

/-- Modelled from the spec: evaluation of the star-rating `$in`. For the
scalar (unwrapped) form the ODM layer wraps the bare number into a
singleton array, so it matches exactly that rating; a NaN entry matches
nothing. -/
def matchStarIn (v : Int) : Option (Sum JNum (List JNum)) → Bool
  | none => true
  | some (.inl j) => j == some v
  | some (.inr l) => l.contains (some v)

/-- Modelled from the spec: evaluation of the `$lte` price bound. The
source stores the bound as a string; the ODM layer casts it back to the
schema's numeric type (see `castQueryNum`), and a failed cast — e.g.
`"NaN"` — matches nothing (spec §4.1: malformed numeric input produces a
comparison that matches nothing). -/
def matchLteStr (v : Int) : Option String → Bool
  | none => true
  | some bound =>
    match castQueryNum bound with
    | none => false
    | some b => v ≤ b

/-- Modelled from the spec: whether a hotel document satisfies every
constraint of a built search query (the document database's query
evaluation is external). -/
def matchesQuery (h : Hotel) (q : SearchQuery) : Bool :=
  matchOr h q.orDestination && matchGte h.adultCount q.adultCount &&
  matchGte h.childCount q.childCount && matchAll h.facilities q.facilities &&
  matchIn h.type q.type && matchStarIn h.starRating q.starRating &&
  matchLteStr h.pricePerNight q.pricePerNight

/-! ### Claim theorems: search query builder (C5, C6, C7) -/

/-- C5: the builder omits the constraint key of every parameter that was
not supplied — no `$or` without destination, no count bounds without the
counts, no `$all` without facilities, no `$in` without types/stars, no
price bound without `maxPrice`. -/
theorem search_query_omits_absent (p : QueryParams) :
    (p.destination = none → (constructSearchQuery p).orDestination = none) ∧
    (p.adultCount = none → (constructSearchQuery p).adultCount = none) ∧
    (p.childCount = none → (constructSearchQuery p).childCount = none) ∧
    (p.facilities = none → (constructSearchQuery p).facilities = none) ∧
    (p.types = none → (constructSearchQuery p).type = none) ∧
    (p.stars = none → (constructSearchQuery p).starRating = none) ∧
    (p.maxPrice = none → (constructSearchQuery p).pricePerNight = none) := by
  refine ⟨?_, ?_, ?_, ?_, ?_, ?_, ?_⟩ <;> intro h <;>
    simp [constructSearchQuery, h]

/-- Witness for C5: the empty parameter set builds the empty query. -/
theorem search_query_omits_absent_witness :
    (constructSearchQuery {}).orDestination = none ∧
    (constructSearchQuery {}).adultCount = none ∧
    (constructSearchQuery {}).childCount = none ∧
    (constructSearchQuery {}).facilities = none ∧
    (constructSearchQuery {}).type = none ∧
    (constructSearchQuery {}).starRating = none ∧
    (constructSearchQuery {}).pricePerNight = none :=
  ⟨(search_query_omits_absent {}).1 rfl,
   (search_query_omits_absent {}).2.1 rfl,
   (search_query_omits_absent {}).2.2.1 rfl,
   (search_query_omits_absent {}).2.2.2.1 rfl,
   (search_query_omits_absent {}).2.2.2.2.1 rfl,
   (search_query_omits_absent {}).2.2.2.2.2.1 rfl,
   (search_query_omits_absent {}).2.2.2.2.2.2 rfl⟩

/-- C6: with `maxPrice` supplied (and parsing to a number), the built
price constraint is satisfied exactly by hotels whose price per night is
at most that number, and any hotel matching the whole built query has
price per night at most that number. -/
theorem search_query_max_price_upper_bound (p : QueryParams) (h : Hotel)
    (m : String) (bound : Int)
    (hmp : p.maxPrice = some m) (hparse : jsParseInt m = some bound) :
    (matchLteStr h.pricePerNight (constructSearchQuery p).pricePerNight = true ↔
      h.pricePerNight ≤ bound) ∧
    (matchesQuery h (constructSearchQuery p) = true → h.pricePerNight ≤ bound) := by
  have hm : m ≠ "" := by
    rintro rfl
    rw [show jsParseInt "" = none from rfl] at hparse
    exact Option.noConfusion hparse
  have hq : (constructSearchQuery p).pricePerNight =
      some (numToString (some bound)) := by
    simp [constructSearchQuery, hmp, hm, hparse]
  have hiff : matchLteStr h.pricePerNight (constructSearchQuery p).pricePerNight = true ↔
      h.pricePerNight ≤ bound := by
    rw [hq]
    simp [matchLteStr, castQueryNum_numToString]
  refine ⟨hiff, fun hmq => ?_⟩
  simp only [matchesQuery, Bool.and_eq_true] at hmq
  exact hiff.mp hmq.2

/-- Witness for C6 at a concrete input: maxPrice "250" bounds the 200/night
hotel in, and the bound evaluates as claimed. -/
theorem search_query_max_price_upper_bound_witness :
    (matchLteStr hotelA.pricePerNight
      (constructSearchQuery { maxPrice := some "250" }).pricePerNight = true ↔
      hotelA.pricePerNight ≤ 250) ∧
    (matchesQuery hotelA (constructSearchQuery { maxPrice := some "250" }) = true →
      hotelA.pricePerNight ≤ 250) :=
  search_query_max_price_upper_bound { maxPrice := some "250" } hotelA
    "250" 250 rfl (by decide)

/-- C7: each supplied parameter builds exactly the specified constraint —
destination matches case-insensitively as a substring of city or country;
adult/child counts are lower bounds; facilities demand containment of all
requested tags; types and star ratings demand membership in the supplied
set. -/
theorem search_query_constraint_semantics (p : QueryParams) (h : Hotel) :
    (∀ d, p.destination = some d → d ≠ "" →
      (matchOr h (constructSearchQuery p).orDestination = true ↔
        (∃ s t, h.city.toLower.toList = s ++ d.toLower.toList ++ t) ∨
        (∃ s t, h.country.toLower.toList = s ++ d.toLower.toList ++ t))) ∧
    (∀ a bound, p.adultCount = some a → jsParseInt a = some bound →
      (matchGte h.adultCount (constructSearchQuery p).adultCount = true ↔
        bound ≤ h.adultCount)) ∧
    (∀ c bound, p.childCount = some c → jsParseInt c = some bound →
      (matchGte h.childCount (constructSearchQuery p).childCount = true ↔
        bound ≤ h.childCount)) ∧
    (∀ fv, p.facilities = some fv → truthyParam fv →
      (matchAll h.facilities (constructSearchQuery p).facilities = true ↔
        ∀ f ∈ toArr fv, f ∈ h.facilities)) ∧
    (∀ tv, p.types = some tv → truthyParam tv →
      (matchIn h.type (constructSearchQuery p).type = true ↔
        h.type ∈ toArr tv)) ∧
    (∀ sv, p.stars = some sv → truthyParam sv →
      (matchStarIn h.starRating (constructSearchQuery p).starRating = true ↔
        some h.starRating ∈ (toArr sv).map jsParseInt)) := by
  refine ⟨?_, ?_, ?_, ?_, ?_, ?_⟩
  · intro d hd hne
    have hq : (constructSearchQuery p).orDestination = some d := by
      simp [constructSearchQuery, hd, hne]
    rw [hq]
    simp [matchOr, hasSub_iff]
  · intro a bound ha hparse
    have hne : a ≠ "" := by
      rintro rfl
      rw [show jsParseInt "" = none from rfl] at hparse
      exact Option.noConfusion hparse
    have hq : (constructSearchQuery p).adultCount = some (some bound) := by
      simp [constructSearchQuery, ha, hne, hparse]
    rw [hq]
    simp [matchGte]
  · intro c bound hc hparse
    have hne : c ≠ "" := by
      rintro rfl
      rw [show jsParseInt "" = none from rfl] at hparse
      exact Option.noConfusion hparse
    have hq : (constructSearchQuery p).childCount = some (some bound) := by
      simp [constructSearchQuery, hc, hne, hparse]
    rw [hq]
    simp [matchGte]
  · intro fv hf htr
    have hq : (constructSearchQuery p).facilities = some (toArr fv) := by
      cases fv with
      | inl s =>
        have hne : s ≠ "" := htr
        simp [constructSearchQuery, hf, toArr, hne]
      | inr l => simp [constructSearchQuery, hf, toArr]
    rw [hq]
    simp [matchAll, List.all_eq_true]
  · intro tv ht htr
    have hq : (constructSearchQuery p).type = some (toArr tv) := by
      cases tv with
      | inl s =>
        have hne : s ≠ "" := htr
        simp [constructSearchQuery, ht, toArr, hne]
      | inr l => simp [constructSearchQuery, ht, toArr]
    rw [hq]
    simp [matchIn]
  · intro sv hs htr
    cases sv with
    | inl s =>
      have hne : s ≠ "" := htr
      have hq : (constructSearchQuery p).starRating = some (.inl (jsParseInt s)) := by
        simp [constructSearchQuery, hs, hne]
      rw [hq]
      simp only [matchStarIn, toArr, List.map_cons, List.map_nil,
        List.mem_singleton, beq_iff_eq]
      constructor
      · intro heq; exact heq ▸ rfl
      · intro heq; exact heq.symm
    | inr l =>
      have hq : (constructSearchQuery p).starRating = some (.inr (l.map jsParseInt)) := by
        simp [constructSearchQuery, hs]
      rw [hq]
      simp [matchStarIn, toArr]

/-- All-filters-supplied fixture for exercising the search query
builder. -/
def paramsA : QueryParams :=
  { destination := some "han", adultCount := some "2", childCount := some "1",
    facilities := some (Sum.inr ["WiFi", "Parking"]),
    types := some (Sum.inr ["Budget"]),
    stars := some (Sum.inr ["4", "5"]), maxPrice := some "250" }

/-- Witness for C7 at a concrete input: every supplied parameter of
`paramsA` is characterised against `hotelA`. -/
theorem search_query_constraint_semantics_witness :
    (matchOr hotelA (constructSearchQuery paramsA).orDestination = true ↔
      (∃ s t, hotelA.city.toLower.toList = s ++ "han".toLower.toList ++ t) ∨
      (∃ s t, hotelA.country.toLower.toList = s ++ "han".toLower.toList ++ t)) ∧
    (matchGte hotelA.adultCount (constructSearchQuery paramsA).adultCount = true ↔
      2 ≤ hotelA.adultCount) ∧
    (matchGte hotelA.childCount (constructSearchQuery paramsA).childCount = true ↔
      1 ≤ hotelA.childCount) ∧
    (matchAll hotelA.facilities (constructSearchQuery paramsA).facilities = true ↔
      ∀ f ∈ toArr (Sum.inr ["WiFi", "Parking"]), f ∈ hotelA.facilities) ∧
    (matchIn hotelA.type (constructSearchQuery paramsA).type = true ↔
      hotelA.type ∈ toArr (Sum.inr ["Budget"])) ∧
    (matchStarIn hotelA.starRating (constructSearchQuery paramsA).starRating = true ↔
      some hotelA.starRating ∈ (toArr (Sum.inr ["4", "5"])).map jsParseInt) := by
  have h := search_query_constraint_semantics paramsA hotelA
  exact ⟨h.1 "han" rfl (by decide), h.2.1 "2" 2 rfl (by decide),
    h.2.2.1 "1" 1 rfl (by decide), h.2.2.2.1 _ rfl trivial,
    h.2.2.2.2.1 _ rfl trivial, h.2.2.2.2.2 _ rfl trivial⟩

/-! ### Search/pagination handler (C4) -/

/-- The page string actually parsed at `hotels.ts:37`:
`req.query.page ? req.query.page.toString() : "1"` — an absent or empty
(falsy) parameter falls back to `"1"`. -/
def effectivePage : Option String → String
  | none => "1"
  | some s => if s = "" then "1" else s

/-- Outcome of the search route: the JSON payload
`{ data, pagination: { total, page, pages } }`, or the 500 answered by
the catch block. -/
inductive SearchResult where
  | ok (data : List Hotel) (total : Nat) (page : Int) (pages : Nat)
  | error500 (msg : String)
deriving DecidableEq

/-- The handler of `GET /search` (`hotels.ts:16-61`), relative to the
sorted list of hotels matching the built query (sorting and filtering
are delegated to the store and do not affect the claims below).
`skip = (page - 1) * 3` documents are dropped and `pageSize = 3` are
taken; `total` counts all matching documents and
`pages = Math.ceil(total / 3)`. Modelled from the spec for the failure
edge: the store rejects a NaN or negative skip, which the catch block
answers with 500 `"Error searching!"`. -/
def searchHandler (matching : List Hotel) (pageParam : Option String) :
    SearchResult :=
  match jsParseInt (effectivePage pageParam) with
  | none => .error500 "Error searching!"
  | some currentPage =>
    if currentPage < 1 then .error500 "Error searching!"
    else
      .ok ((matching.drop ((currentPage - 1) * 3).toNat).take 3)
        matching.length currentPage ((matching.length + 2) / 3)

/-- C4: for every 1-based page, the search response reports
`pages = ceil(total / 3)` (pinned by the two sandwich inequalities),
returns at most 3 hotels, and a page strictly beyond the last page
yields an empty data set while `total` and `pages` stay accurate — with
no error. -/
theorem search_pagination_bounds (matching : List Hotel)
    (pageParam : Option String) (page : Int)
    (hp : jsParseInt (effectivePage pageParam) = some page)
    (h1 : 1 ≤ page) :
    searchHandler matching pageParam =
      .ok ((matching.drop ((page - 1) * 3).toNat).take 3) matching.length
        page ((matching.length + 2) / 3) ∧
    ((matching.drop ((page - 1) * 3).toNat).take 3).length ≤ 3 ∧
    matching.length ≤ 3 * ((matching.length + 2) / 3) ∧
    3 * ((matching.length + 2) / 3) < matching.length + 3 ∧
    (((matching.length + 2) / 3 : Int) < page →
      (matching.drop ((page - 1) * 3).toNat).take 3 = []) := by
  refine ⟨?_, ?_, by omega, by omega, ?_⟩
  · simp [searchHandler, hp, (show ¬page < 1 by omega)]
  · simp [List.length_take_le 3 _]
  · intro hlt
    have hle : matching.length ≤ ((page - 1) * 3).toNat := by omega
    rw [List.drop_eq_nil_of_le hle]
    rfl

/-- Witness for C4 at the spec's own example: 7 matching hotels, page 3
returns the single remaining hotel with pages = 3; page 5 (beyond the
last) returns the empty data set with the same accurate totals. -/
theorem search_pagination_bounds_witness :
    searchHandler (List.replicate 7 hotelA) (some "3") = .ok [hotelA] 7 3 3 ∧
    searchHandler (List.replicate 7 hotelA) (some "5") = .ok [] 7 5 3 := by
  have h3 := search_pagination_bounds (List.replicate 7 hotelA) (some "3") 3
    (by decide) (by decide)
  have h5 := search_pagination_bounds (List.replicate 7 hotelA) (some "5") 5
    (by decide) (by decide)
  constructor
  · rw [h3.1]; decide
  · rw [h5.1]; decide
